import Mathlib

/-!
Formal model of the llm-event-analysis platform: the common event model
(pkg/common/model.go), the processor summary rollup (processor-svc/db.go),
the analyzer cache keys and handler (analyzer-svc), the triage
orchestrator, and the LLM gateway circuit breaker.  Time instants are
modelled as integers (ticks); maps are modelled as association lists with
Go map update semantics.
-/

set_option maxHeartbeats 1000000

/-- Time instants (Go time.Time), modelled as an integer tick count.
The Go zero time corresponds to tick 0. -/
abbrev Time := Int

/-! ## Association-list maps -/

/-- Lookup in a string-keyed association list. -/
def lookupA {α : Type} (m : List (String × α)) (k : String) : Option α :=
  match m with
  | [] => none
  | (k2, v) :: rest => if k2 = k then some v else lookupA rest k

/-- Insert or overwrite a key in a string-keyed association list. -/
def setA {α : Type} (m : List (String × α)) (k : String) (v : α) : List (String × α) :=
  match m with
  | [] => [(k, v)]
  | (k2, v2) :: rest => if k2 = k then (k2, v) :: rest else (k2, v2) :: setA rest k v

/-- Go map increment `m[k]++`: a missing key is treated as 0 and inserted with 1. -/
def mapIncr (m : List (String × Nat)) (k : String) : List (String × Nat) :=
  match m with
  | [] => [(k, 1)]
  | (k2, v) :: rest => if k2 = k then (k2, v + 1) :: rest else (k2, v) :: mapIncr rest k

/-- Sum of the values of a counter map. -/
def mapSum (m : List (String × Nat)) : Nat := (m.map Prod.snd).sum

/-- Counter-map lookup with Go default value 0 for missing keys. -/
def lookupD (m : List (String × Nat)) (k : String) : Nat := (lookupA m k).getD 0

theorem lookupA_setA_self {α : Type} (m : List (String × α)) (k : String) (v : α) :
    lookupA (setA m k v) k = some v := by
  induction m with
  | nil => simp [setA, lookupA]
  | cons hd tl ih =>
    obtain ⟨k2, v2⟩ := hd
    by_cases h : k2 = k
    · simp [setA, lookupA, h]
    · simp [setA, lookupA, h, ih]

theorem mapSum_mapIncr (m : List (String × Nat)) (k : String) :
    mapSum (mapIncr m k) = mapSum m + 1 := by
  induction m with
  | nil => simp [mapIncr, mapSum]
  | cons hd tl ih =>
    obtain ⟨k2, v⟩ := hd
    by_cases h : k2 = k
    · simp [mapIncr, mapSum, h]
      omega
    · simp only [mapIncr, if_neg h]
      simp only [mapSum, List.map_cons, List.sum_cons] at ih ⊢
      omega

theorem lookupD_mapIncr_self (m : List (String × Nat)) (k : String) :
    lookupD (mapIncr m k) k = lookupD m k + 1 := by
  induction m with
  | nil => simp [mapIncr, lookupD, lookupA]
  | cons hd tl ih =>
    obtain ⟨k2, v⟩ := hd
    by_cases h : k2 = k
    · simp [mapIncr, lookupD, lookupA, h]
    · simp only [mapIncr, if_neg h] at *
      simpa [lookupD, lookupA, h] using ih

/-! ## Event model (pkg/common/model.go) -/

/-- Severity enum: Info=0, Warn=1, Err=2, Critical=3. -/
inductive Severity
  | info
  | warn
  | err
  | critical
  deriving DecidableEq

/-- Stringer-generated names of the Go constants (SeverityInfo, ...), used as
by_severity keys by the summary rollup. The generated file is not part of
src; the names follow the stringer convention for the declared constants. -/
def severityGoName : Severity → String
  | Severity.info => "SeverityInfo"
  | Severity.warn => "SeverityWarn"
  | Severity.err => "SeverityErr"
  | Severity.critical => "SeverityCritical"

/-- Modelled from the spec: the name of each severity per the data-model enum
\x7bInfo, Warn, Err, Critical\x7d (spec section 3); the stringer String()
output for the prefixed Go constants is generated code absent from src. -/
def severityName : Severity → String
  | Severity.info => "Info"
  | Severity.warn => "Warn"
  | Severity.err => "Err"
  | Severity.critical => "Critical"

/-- ASCII lowercase of one character (Go strings.ToLower restricted to the
ASCII inputs that occur here). -/
def asciiLower (c : Char) : Char :=
  if 65 ≤ c.toNat ∧ c.toNat ≤ 90 then Char.ofNat (c.toNat + 32) else c

/-- ASCII lowercase of a string. -/
def strLower (s : String) : String := String.mk (s.data.map asciiLower)

/-- Whitespace test (Go unicode.IsSpace restricted to the ASCII whitespace
that occurs here). -/
def isSpaceChar (c : Char) : Bool := c = ' ' ∨ c = '\t' ∨ c = '\n' ∨ c = '\r'

/-- Go strings.TrimSpace: strip leading and trailing whitespace. -/
def strTrim (s : String) : String :=
  String.mk (((s.data.dropWhile isSpaceChar).reverse.dropWhile isSpaceChar).reverse)

/-- ParseSeverity: case-insensitive parse; returns the severity and an
ok flag (false models the non-nil error, with SeverityInfo as the value). -/
def parseSeverity (s : String) : Severity × Bool :=
  match strLower s with
  | "info" => (Severity.info, true)
  | "warn" => (Severity.warn, true)
  | "warning" => (Severity.warn, true)
  | "err" => (Severity.err, true)
  | "error" => (Severity.err, true)
  | "fatal" => (Severity.critical, true)
  | "critical" => (Severity.critical, true)
  | _ => (Severity.info, false)

/-- Canonical event. Payload values are opaque to all modelled logic and are
carried as strings. -/
structure Event where
  id : String
  timestamp : Time
  source : String
  severity : Severity
  type : String
  payload : List (String × String)
  deriving DecidableEq

/-- Event.Validate: source and type must be non-blank after trimming. -/
def validateEvent (e : Event) : Bool :=
  !(strTrim e.source == "") && !(strTrim e.type == "")

/-- Event.Enrich: a blank id gets a fresh random hex id; a zero timestamp
gets the current instant. Randomness and the clock are parameters. -/
def enrichEvent (e : Event) (freshId : String) (now : Time) : Event :=
  { e with
    id := if strTrim e.id == "" then freshId else e.id,
    timestamp := if e.timestamp == 0 then now else e.timestamp }

/-- TimeRange. The Go field End is called stop here (end is reserved in Lean). -/
structure TimeRange where
  start : Time
  stop : Time
  deriving DecidableEq

/-- TimeRange.Validate: both fields non-zero and start not after end. -/
def validateTimeRange (tr : TimeRange) : Bool :=
  !(tr.start == 0) && !(tr.stop == 0) && !(decide (tr.stop < tr.start))

/-- Per-bucket rollup row. -/
structure EventSummary where
  bucketStart : Time
  bucketEnd : Time
  totalCount : Nat
  bySeverity : List (String × Nat)
  byType : List (String × Nat)
  sampleEvents : List Event
  deriving DecidableEq

/-! ## Summary rollup (processor-svc/db.go, updateSummary) -/

/-- summarySampleLimit from db.go. -/
def summarySampleLimit : Nat := 5

/-- The INSERT branch of updateSummary: fresh row for the first event of a bucket. -/
def newSummaryRow (bs be : Time) (e : Event) : EventSummary :=
  { bucketStart := bs
    bucketEnd := be
    totalCount := 1
    bySeverity := [(severityGoName e.severity, 1)]
    byType := [(e.type, 1)]
    sampleEvents := [e] }

/-- The UPDATE branch of updateSummary: one step on an existing row.
Increments total_count and the two counter maps, and appends the event to
sample_events only while fewer than summarySampleLimit samples are stored. -/
def updateSummaryRow (s : EventSummary) (e : Event) : EventSummary :=
  { s with
    totalCount := s.totalCount + 1
    bySeverity := mapIncr s.bySeverity (severityGoName e.severity)
    byType := mapIncr s.byType e.type
    sampleEvents :=
      if s.sampleEvents.length < summarySampleLimit then s.sampleEvents ++ [e]
      else s.sampleEvents }

/-- The summary row of a bucket after its first event and then each further
persisted event has been applied in arrival order. -/
def summaryAfterEvents (bs be : Time) (first : Event) (rest : List Event) : EventSummary :=
  rest.foldl updateSummaryRow (newSummaryRow bs be first)

theorem summaryFold_invariant (rest : List Event) :
    ∀ s : EventSummary,
      mapSum s.bySeverity = s.totalCount →
      mapSum s.byType = s.totalCount →
      s.sampleEvents.length = min s.totalCount 5 →
      (rest.foldl updateSummaryRow s).totalCount = s.totalCount + rest.length
        ∧ mapSum (rest.foldl updateSummaryRow s).bySeverity = s.totalCount + rest.length
        ∧ mapSum (rest.foldl updateSummaryRow s).byType = s.totalCount + rest.length
        ∧ (rest.foldl updateSummaryRow s).sampleEvents.length
            = min (s.totalCount + rest.length) 5 := by
  induction rest with
  | nil =>
    intro s h1 h2 h3
    simp only [List.foldl_nil, List.length_nil, Nat.add_zero]
    exact ⟨trivial, h1, h2, h3⟩
  | cons e rest ih =>
    intro s h1 h2 h3
    have hstep1 : mapSum (updateSummaryRow s e).bySeverity = (updateSummaryRow s e).totalCount := by
      simp [updateSummaryRow, mapSum_mapIncr, h1]
    have hstep2 : mapSum (updateSummaryRow s e).byType = (updateSummaryRow s e).totalCount := by
      simp [updateSummaryRow, mapSum_mapIncr, h2]
    have hstep3 : (updateSummaryRow s e).sampleEvents.length
        = min (updateSummaryRow s e).totalCount 5 := by
      simp only [updateSummaryRow, summarySampleLimit]
      by_cases h : s.sampleEvents.length < 5
      · simp only [if_pos h, List.length_append, List.length_singleton]
        omega
      · simp only [if_neg h]
        omega
    have := ih (updateSummaryRow s e) hstep1 hstep2 hstep3
    simp only [List.foldl_cons, List.length_cons]
    have htc : (updateSummaryRow s e).totalCount = s.totalCount + 1 := rfl
    constructor
    · rw [this.1, htc]; omega
    constructor
    · rw [this.2.1, htc]; omega
    constructor
    · rw [this.2.2.1, htc]; omega
    · rw [this.2.2.2, htc]; congr 1; omega

/-- Claim C1: one step of the summary update on an existing bucket row
increments total_count by exactly 1, increments the by_severity entry for
the event severity and the by_type entry for the event type by exactly 1,
and appends the event to sample_events only when fewer than 5 samples are
stored; consequently a bucket holding N = rest.length + 1 persisted events
has total_count = N, by_severity summing to N, by_type summing to N, and
exactly min N 5 sample events. -/
theorem summary_update_invariants (s : EventSummary) (e : Event)
    (bs be : Time) (first : Event) (rest : List Event) :
    ((updateSummaryRow s e).totalCount = s.totalCount + 1
      ∧ lookupD (updateSummaryRow s e).bySeverity (severityGoName e.severity)
          = lookupD s.bySeverity (severityGoName e.severity) + 1
      ∧ lookupD (updateSummaryRow s e).byType e.type = lookupD s.byType e.type + 1
      ∧ (updateSummaryRow s e).sampleEvents
          = (if s.sampleEvents.length < 5 then s.sampleEvents ++ [e] else s.sampleEvents))
    ∧ ((summaryAfterEvents bs be first rest).totalCount = rest.length + 1
      ∧ mapSum (summaryAfterEvents bs be first rest).bySeverity = rest.length + 1
      ∧ mapSum (summaryAfterEvents bs be first rest).byType = rest.length + 1
      ∧ (summaryAfterEvents bs be first rest).sampleEvents.length
          = min (rest.length + 1) 5) := by
  constructor
  · refine ⟨rfl, ?_, ?_, rfl⟩
    · simp [updateSummaryRow, lookupD_mapIncr_self]
    · simp [updateSummaryRow, lookupD_mapIncr_self]
  · have hbase := summaryFold_invariant rest (newSummaryRow bs be first)
      (by simp [newSummaryRow, mapSum])
      (by simp [newSummaryRow, mapSum])
      (by simp [newSummaryRow])
    have htc : (newSummaryRow bs be first).totalCount = 1 := rfl
    rw [htc] at hbase
    refine ⟨?_, ?_, ?_, ?_⟩
    · rw [summaryAfterEvents, hbase.1]; omega
    · rw [summaryAfterEvents, hbase.2.1]; omega
    · rw [summaryAfterEvents, hbase.2.2.1]; omega
    · rw [summaryAfterEvents, hbase.2.2.2]; congr 1; omega

/-- Claim C5: for every severity, parsing the lowercased severity name with
ParseSeverity returns that severity with no error. -/
theorem parseSeverity_roundtrip :
    ∀ sv : Severity, parseSeverity (strLower (severityName sv)) = (sv, true) := by
  intro sv
  cases sv <;> decide

/-! ## SHA-256 (crypto/sha256) over byte lists -/

/-- Truncate to a 32-bit word. -/
def w32 (x : Nat) : Nat := x % 4294967296

/-- Truncate to a byte. -/
def w8 (x : Nat) : Nat := x % 256

/-- 32-bit right rotation. -/
def rotr32 (n x : Nat) : Nat := w32 ((x >>> n) ||| (x <<< (32 - n)))

/-- SHA-256 round constants. -/
def shaK : List Nat :=
  [1116352408, 1899447441, 3049323471, 3921009573, 961987163, 1508970993,
   2453635748, 2870763221, 3624381080, 310598401, 607225278, 1426881987,
   1925078388, 2162078206, 2614888103, 3248222580, 3835390401, 4022224774,
   264347078, 604807628, 770255983, 1249150122, 1555081692, 1996064986,
   2554220882, 2821834349, 2952996808, 3210313671, 3336571891, 3584528711,
   113926993, 338241895, 666307205, 773529912, 1294757372, 1396182291,
   1695183700, 1986661051, 2177026350, 2456956037, 2730485921, 2820302411,
   3259730800, 3345764771, 3516065817, 3600352804, 4094571909, 275423344,
   430227734, 506948616, 659060556, 883997877, 958139571, 1322822218,
   1537002063, 1747873779, 1955562222, 2024104815, 2227730452, 2361852424,
   2428436474, 2756734187, 3204031479, 3329325298]

/-- SHA-256 initial hash state. -/
def shaH0 : List Nat :=
  [1779033703, 3144134277, 1013904242, 2773480762,
   1359893119, 2600822924, 528734635, 1541459225]

/-- Big-endian bytes to 32-bit words. -/
def bytesToWordsBE : List Nat → List Nat
  | a :: b :: c :: d :: rest => (a * 16777216 + b * 65536 + c * 256 + d) :: bytesToWordsBE rest
  | _ => []

/-- Big-endian 8-byte rendering of a 64-bit length. -/
def be64 (n : Nat) : List Nat :=
  [w8 (n >>> 56), w8 (n >>> 48), w8 (n >>> 40), w8 (n >>> 32),
   w8 (n >>> 24), w8 (n >>> 16), w8 (n >>> 8), w8 n]

/-- Big-endian 4-byte rendering of a 32-bit word. -/
def be32 (n : Nat) : List Nat := [w8 (n >>> 24), w8 (n >>> 16), w8 (n >>> 8), w8 n]

/-- SHA-256 padding: 0x80, zeros to 56 mod 64, then the bit length. -/
def shaPad (msg : List Nat) : List Nat :=
  let z := (120 - ((msg.length + 1) % 64)) % 64
  msg ++ [0x80] ++ List.replicate z 0 ++ be64 (msg.length * 8)

def smallSigma0 (x : Nat) : Nat := (rotr32 7 x) ^^^ (rotr32 18 x) ^^^ (x >>> 3)

def smallSigma1 (x : Nat) : Nat := (rotr32 17 x) ^^^ (rotr32 19 x) ^^^ (x >>> 10)

def bigSigma0 (x : Nat) : Nat := (rotr32 2 x) ^^^ (rotr32 13 x) ^^^ (rotr32 22 x)

def bigSigma1 (x : Nat) : Nat := (rotr32 6 x) ^^^ (rotr32 11 x) ^^^ (rotr32 25 x)

/-- Message-schedule extension from 16 to 64 words. -/
def extendW (w : List Nat) : List Nat :=
  (List.range 48).foldl
    (fun acc _ =>
      let n := acc.length
      acc ++ [w32 (smallSigma1 (acc.getD (n - 2) 0) + acc.getD (n - 7) 0
        + smallSigma0 (acc.getD (n - 15) 0) + acc.getD (n - 16) 0)])
    w

/-- One SHA-256 compression round over the state [a,b,c,d,e,f,g,h]. -/
def shaRound (w : List Nat) (st : List Nat) (i : Nat) : List Nat :=
  match st with
  | [a, b, c, d, e, f, g, h] =>
    let ch := (e &&& f) ^^^ ((e ^^^ 4294967295) &&& g)
    let maj := (a &&& b) ^^^ (a &&& c) ^^^ (b &&& c)
    let t1 := w32 (h + bigSigma1 e + ch + shaK.getD i 0 + w.getD i 0)
    let t2 := w32 (bigSigma0 a + maj)
    [w32 (t1 + t2), a, b, c, w32 (d + t1), e, f, g]
  | other => other

/-- Compress one 64-byte chunk into the hash state. -/
def shaCompress (hs : List Nat) (chunk : List Nat) : List Nat :=
  let w := extendW (bytesToWordsBE chunk)
  let fin := (List.range 64).foldl (shaRound w) hs
  List.zipWith (fun x y => w32 (x + y)) hs fin

/-- Split into 64-byte chunks. -/
def shaChunks (l : List Nat) : List (List Nat) :=
  if h : l = [] then [] else l.take 64 :: shaChunks (l.drop 64)
termination_by l.length
decreasing_by
  have : 0 < l.length := List.length_pos.mpr h
  simp [List.length_drop]
  omega

/-- SHA-256 digest (32 bytes) of a byte sequence. -/
def sha256 (msg : List Nat) : List Nat :=
  ((shaChunks (shaPad msg)).foldl shaCompress shaH0).map be32 |>.flatten

/-- Lowercase hex digit. -/
def hexDigit (n : Nat) : Char :=
  if n < 10 then Char.ofNat (48 + n) else Char.ofNat (87 + n)

/-- Two-digit lowercase hex rendering of a byte. -/
def hexByte (b : Nat) : List Char := [hexDigit (b / 16), hexDigit (b % 16)]

/-- Lowercase hex string of a byte sequence (encoding/hex EncodeToString). -/
def hexStr (bytes : List Nat) : String := String.mk ((bytes.map hexByte).flatten)

/-- UTF-8 bytes of one character. -/
def utf8Char (c : Char) : List Nat :=
  let n := c.toNat
  if n < 128 then [n]
  else if n < 2048 then [192 + n / 64, 128 + n % 64]
  else if n < 65536 then [224 + n / 4096, 128 + (n / 64) % 64, 128 + n % 64]
  else [240 + n / 262144, 128 + (n / 4096) % 64, 128 + (n / 64) % 64, 128 + n % 64]

/-- UTF-8 bytes of a string. -/
def utf8Bytes (s : String) : List Nat := (s.data.map utf8Char).flatten

/-! ## JSON encodings (encoding/json on the request and time-range structs) -/

/-- Six-character unicode escape for a byte-sized code point. -/
def uEsc (n : Nat) : List Char := ['\\', 'u', '0', '0', hexDigit (n / 16), hexDigit (n % 16)]

/-- encoding/json string escaping (default HTML-escaping encoder). -/
def jsonEscapeChar (c : Char) : List Char :=
  if c = '"' then ['\\', '"']
  else if c = '\\' then ['\\', '\\']
  else if c = '\n' then ['\\', 'n']
  else if c = '\r' then ['\\', 'r']
  else if c = '\t' then ['\\', 't']
  else if c.toNat < 32 then uEsc c.toNat
  else if c = '<' ∨ c = '>' ∨ c = '&' then uEsc c.toNat
  else [c]

/-- JSON string literal. -/
def jsonStr (s : String) : String :=
  "\"" ++ String.mk ((s.data.map jsonEscapeChar).flatten) ++ "\""

/-- JSON rendering of a time instant. Go marshals time.Time as an RFC3339
string; with instants modelled as ticks, the canonical decimal rendering of
the tick stands in for the RFC3339 text (both are injective renderings). -/
def jsonTime (t : Time) : String := jsonStr (toString t)

/-- JSON object for a TimeRange (fields start, end). -/
def jsonTimeRange (tr : TimeRange) : String :=
  "\x7b\"start\":" ++ jsonTime tr.start ++ ",\"end\":" ++ jsonTime tr.stop ++ "\x7d"

/-- Analyze request (analyzer-svc/analyze.go). -/
structure AnalyzeRequest where
  question : String
  maxEvents : Int
  timeRange : Option TimeRange
  deriving DecidableEq

/-- Analyze response (analyzer-svc/analyze.go). -/
structure AnalyzeResponse where
  answer : String
  eventsUsed : Nat
  tokensUsed : Nat
  cached : Bool
  sampleEvents : List String
  deriving DecidableEq

/-- encoding/json of AnalyzeRequest: question, then max_events and
time_range under omitempty (absent max_events is the zero value 0; absent
time_range is a nil pointer). -/
def jsonAnalyzeRequest (req : AnalyzeRequest) : String :=
  "\x7b\"question\":" ++ jsonStr req.question
    ++ (if req.maxEvents == 0 then "" else ",\"max_events\":" ++ toString req.maxEvents)
    ++ (match req.timeRange with
        | none => ""
        | some tr => ",\"time_range\":" ++ jsonTimeRange tr)
    ++ "\x7d"

/-- generateCacheKey (analyzer-svc/cache.go): analyze: plus the first 12 hex
characters of the SHA-256 of the JSON encoding of the request. -/
def generateCacheKey (req : AnalyzeRequest) : String :=
  let str := jsonAnalyzeRequest req
  let hashStr := hexStr (sha256 (utf8Bytes str))
  "analyze:" ++ hashStr.take 12

/-- triageResultsCacheKey (analyzer-svc cache): triage: plus the first 12 hex
characters of the SHA-256 of the JSON encoding of the time range. -/
def triageResultsCacheKey (tr : TimeRange) : String :=
  "triage:" ++ (hexStr (sha256 (utf8Bytes (jsonTimeRange tr)))).take 12

/-! ## Analyze flow (analyzer-svc/analyze.go handleAnalyze)

The response cache is modelled at the level of decoded values: the Redis
string cache stores the JSON of an AnalyzeResponse, and json.Marshal
followed by json.Unmarshal is the identity on this struct, so the cache is
an association list from key to response. -/

/-- Analyze response cache. -/
abbrev AnalyzeCache := List (String × AnalyzeResponse)

/-- getCachedAnalyzeResponse: look up the response under the request key. -/
def getCachedAnalyzeResponse (cache : AnalyzeCache) (req : AnalyzeRequest) :
    Option AnalyzeResponse :=
  lookupA cache (generateCacheKey req)

/-- cacheAnalyzeResponse: store the response under the request key
(TTL 30 min, not modelled beyond entry liveness). -/
def cacheAnalyzeResponse (cache : AnalyzeCache) (req : AnalyzeRequest)
    (resp : AnalyzeResponse) : AnalyzeCache :=
  setA cache (generateCacheKey req) resp

/-- Effective event limit in handleAnalyze: the configured maximum unless the
requested value lies in [1, cfgMax]. -/
def effectiveMaxEvents (reqMax cfgMax : Int) : Int :=
  if reqMax ≤ 0 ∨ cfgMax < reqMax then cfgMax else reqMax

/-- analyzeWithLLM: with no genai client, a literal mock answer and zero
tokens; otherwise the trimmed provider text (none models a render or
provider error, including an unconfigured prompt library). -/
def analyzeWithLLM (genaiAvailable : Bool) (llmText : Option String)
    (events : List Event) : Option (String × Nat) :=
  if !genaiAvailable then
    some ("Analyzed " ++ toString events.length ++ " events. (LLM unavailable)", 0)
  else
    match llmText with
    | none => none
    | some t => some (strTrim t, 0)

/-- HTTP outcome of the analyze handler. -/
inductive AnalyzeOutcome
  | badRequest (msg : String)
  | serverError (msg : String)
  | okResp (resp : AnalyzeResponse)
  deriving DecidableEq

/-- handleAnalyze: validation, cache lookup, fetch, LLM call, sampling,
response construction and cache write, in source order. The event fetch,
the provider text and the sample shuffle are oracles. -/
def handleAnalyze (cache : AnalyzeCache) (req : AnalyzeRequest) (cfgMaxEvents : Int)
    (fetch : Option TimeRange → Int → Option (List Event))
    (genaiAvailable : Bool) (llmText : Option String)
    (shuffle : List Event → List Event) :
    AnalyzeOutcome × AnalyzeCache :=
  if strTrim req.question == "" then (.badRequest "question is required", cache)
  else if (match req.timeRange with
           | some tr => !(validateTimeRange tr)
           | none => false) then (.badRequest "invalid time range", cache)
  else
    match getCachedAnalyzeResponse cache req with
    | some cached => (.okResp { cached with cached := true }, cache)
    | none =>
      let maxEvents := effectiveMaxEvents req.maxEvents cfgMaxEvents
      match fetch req.timeRange maxEvents with
      | none => (.serverError "failed to fetch events", cache)
      | some events =>
        match analyzeWithLLM genaiAvailable llmText events with
        | none => (.serverError "analysis failed", cache)
        | some (answer, tokensUsed) =>
          let sampleIDs := ((shuffle events).take (min 5 events.length)).map Event.id
          let resp : AnalyzeResponse :=
            { answer := answer
              eventsUsed := events.length
              tokensUsed := tokensUsed
              cached := false
              sampleEvents := sampleIDs }
          (.okResp resp, cacheAnalyzeResponse cache req resp)

/-- Claim C3: the cache key of an analyze request is the deterministic string
analyze: followed by the first 12 hex characters of the SHA-256 of the
request JSON; and storing a cached=false response under that key and
re-issuing the identical request returns that response with cached set to
true and every other field unchanged (and leaves the cache as written). -/
theorem analyze_cache_roundtrip (cache : AnalyzeCache) (req : AnalyzeRequest)
    (R : AnalyzeResponse) (cfgMaxEvents : Int)
    (fetch : Option TimeRange → Int → Option (List Event))
    (genaiAvailable : Bool) (llmText : Option String)
    (shuffle : List Event → List Event)
    (hq : strTrim req.question ≠ "")
    (htr : ∀ tr, req.timeRange = some tr → validateTimeRange tr = true)
    (hc : R.cached = false) :
    generateCacheKey req
        = "analyze:" ++ (hexStr (sha256 (utf8Bytes (jsonAnalyzeRequest req)))).take 12
      ∧ handleAnalyze (cacheAnalyzeResponse cache req R) req cfgMaxEvents fetch
            genaiAvailable llmText shuffle
          = (.okResp { R with cached := true }, cacheAnalyzeResponse cache req R) := by
  have hqb : (strTrim req.question == "") = false := beq_eq_false_iff_ne.mpr hq
  have htrb : (match req.timeRange with
               | some tr => !(validateTimeRange tr)
               | none => false) = false := by
    cases h : req.timeRange with
    | none => rfl
    | some tr => simp [htr tr h]
  have hhit : getCachedAnalyzeResponse (cacheAnalyzeResponse cache req R) req = some R := by
    simp [getCachedAnalyzeResponse, cacheAnalyzeResponse, lookupA_setA_self]
  refine ⟨rfl, ?_⟩
  simp [handleAnalyze, hqb, htrb, hhit]

/-- Claim C3 witness at a concrete request, response and empty cache. -/
theorem analyze_cache_roundtrip_witness :
    (strTrim "what happened" ≠ ""
      ∧ (∀ tr, (none : Option TimeRange) = some tr → validateTimeRange tr = true)
      ∧ (AnalyzeResponse.mk "all quiet" 3 0 false ["e1"]).cached = false)
    ∧ (generateCacheKey (AnalyzeRequest.mk "what happened" 0 none)
        = "analyze:" ++ (hexStr (sha256 (utf8Bytes
            (jsonAnalyzeRequest (AnalyzeRequest.mk "what happened" 0 none))))).take 12
      ∧ handleAnalyze
            (cacheAnalyzeResponse [] (AnalyzeRequest.mk "what happened" 0 none)
              (AnalyzeResponse.mk "all quiet" 3 0 false ["e1"]))
            (AnalyzeRequest.mk "what happened" 0 none) 100 (fun _ _ => none) false none id
          = (.okResp { AnalyzeResponse.mk "all quiet" 3 0 false ["e1"] with cached := true },
              cacheAnalyzeResponse [] (AnalyzeRequest.mk "what happened" 0 none)
                (AnalyzeResponse.mk "all quiet" 3 0 false ["e1"]))) :=
  ⟨⟨by decide, ⟨(fun tr h => nomatch h), rfl⟩⟩,
    analyze_cache_roundtrip [] (AnalyzeRequest.mk "what happened" 0 none)
      (AnalyzeResponse.mk "all quiet" 3 0 false ["e1"]) 100 (fun _ _ => none) false none id
      (by decide) (fun tr h => nomatch h) rfl⟩

/-- Claim C8: the effective event limit always lies in [1, CfgMaxEvents]
(for a positive configured maximum), equals CfgMaxEvents when max_events is
absent (the zero value 0) or out of range, and passes an in-range request
value through unchanged. -/
theorem effectiveMaxEvents_clamped (reqMax cfgMax : Int) (hcfg : 1 ≤ cfgMax) :
    (1 ≤ effectiveMaxEvents reqMax cfgMax ∧ effectiveMaxEvents reqMax cfgMax ≤ cfgMax)
    ∧ (reqMax = 0 → effectiveMaxEvents reqMax cfgMax = cfgMax)
    ∧ (reqMax ≤ 0 ∨ cfgMax < reqMax → effectiveMaxEvents reqMax cfgMax = cfgMax)
    ∧ (1 ≤ reqMax → reqMax ≤ cfgMax → effectiveMaxEvents reqMax cfgMax = reqMax) := by
  unfold effectiveMaxEvents
  by_cases hcond : reqMax ≤ 0 ∨ cfgMax < reqMax
  · rw [if_pos hcond]
    exact ⟨⟨hcfg, le_refl _⟩, fun _ => rfl, fun _ => rfl,
      fun h1 h2 => by rcases hcond with h | h <;> omega⟩
  · rw [if_neg hcond]
    push_neg at hcond
    obtain ⟨h1, h2⟩ := hcond
    exact ⟨⟨by omega, h2⟩, fun h => by omega,
      fun h => by rcases h with h | h <;> omega, fun _ _ => rfl⟩

/-- Claim C8 witness at max_events 0 and configured maximum 100. -/
theorem effectiveMaxEvents_clamped_witness :
    (1 : Int) ≤ 100
    ∧ ((1 ≤ effectiveMaxEvents 0 100 ∧ effectiveMaxEvents 0 100 ≤ 100)
      ∧ ((0 : Int) = 0 → effectiveMaxEvents 0 100 = 100)
      ∧ ((0 : Int) ≤ 0 ∨ (100 : Int) < 0 → effectiveMaxEvents 0 100 = 100)
      ∧ ((1 : Int) ≤ 0 → (0 : Int) ≤ 100 → effectiveMaxEvents 0 100 = 0)) :=
  ⟨by decide, effectiveMaxEvents_clamped 0 100 (by decide)⟩

/-- Claim C10: with no LLM client configured, the analyze flow succeeds: it
returns 200 with the literal answer naming the fetched event count, zero
tokens used, cached=false, and writes the response to the cache. -/
theorem analyze_no_llm_success (cache : AnalyzeCache) (req : AnalyzeRequest)
    (cfgMaxEvents : Int) (fetch : Option TimeRange → Int → Option (List Event))
    (llmText : Option String) (shuffle : List Event → List Event) (events : List Event)
    (hq : strTrim req.question ≠ "")
    (htr : ∀ tr, req.timeRange = some tr → validateTimeRange tr = true)
    (hmiss : getCachedAnalyzeResponse cache req = none)
    (hfetch : fetch req.timeRange (effectiveMaxEvents req.maxEvents cfgMaxEvents)
        = some events) :
    ∃ resp : AnalyzeResponse,
      handleAnalyze cache req cfgMaxEvents fetch false llmText shuffle
          = (.okResp resp, cacheAnalyzeResponse cache req resp)
        ∧ resp.answer = "Analyzed " ++ toString events.length ++ " events. (LLM unavailable)"
        ∧ resp.eventsUsed = events.length
        ∧ resp.tokensUsed = 0
        ∧ resp.cached = false
        ∧ getCachedAnalyzeResponse (cacheAnalyzeResponse cache req resp) req = some resp := by
  have hqb : (strTrim req.question == "") = false := beq_eq_false_iff_ne.mpr hq
  have htrb : (match req.timeRange with
               | some tr => !(validateTimeRange tr)
               | none => false) = false := by
    cases h : req.timeRange with
    | none => rfl
    | some tr => simp [htr tr h]
  refine ⟨{ answer := "Analyzed " ++ toString events.length ++ " events. (LLM unavailable)"
            eventsUsed := events.length
            tokensUsed := 0
            cached := false
            sampleEvents := ((shuffle events).take (min 5 events.length)).map Event.id },
          ?_, rfl, rfl, rfl, rfl, ?_⟩
  · simp [handleAnalyze, hqb, htrb, hmiss, hfetch, analyzeWithLLM]
  · simp [getCachedAnalyzeResponse, cacheAnalyzeResponse, lookupA_setA_self]

/-- Claim C10 witness at a concrete request with an empty store. -/
theorem analyze_no_llm_success_witness :
    (strTrim "any alerts" ≠ ""
      ∧ (∀ tr, (none : Option TimeRange) = some tr → validateTimeRange tr = true)
      ∧ getCachedAnalyzeResponse [] (AnalyzeRequest.mk "any alerts" 0 none) = none
      ∧ (fun (_ : Option TimeRange) (_ : Int) => some ([] : List Event))
          (AnalyzeRequest.mk "any alerts" 0 none).timeRange
          (effectiveMaxEvents (AnalyzeRequest.mk "any alerts" 0 none).maxEvents 100)
        = some [])
    ∧ (∃ resp : AnalyzeResponse,
        handleAnalyze [] (AnalyzeRequest.mk "any alerts" 0 none) 100
            (fun _ _ => some []) false none id
          = (.okResp resp, cacheAnalyzeResponse [] (AnalyzeRequest.mk "any alerts" 0 none) resp)
        ∧ resp.answer = "Analyzed " ++ toString (List.length ([] : List Event))
            ++ " events. (LLM unavailable)"
        ∧ resp.eventsUsed = List.length ([] : List Event)
        ∧ resp.tokensUsed = 0
        ∧ resp.cached = false
        ∧ getCachedAnalyzeResponse
            (cacheAnalyzeResponse [] (AnalyzeRequest.mk "any alerts" 0 none) resp)
            (AnalyzeRequest.mk "any alerts" 0 none) = some resp) :=
  ⟨⟨by decide, ⟨(fun tr h => nomatch h), ⟨rfl, rfl⟩⟩⟩,
    analyze_no_llm_success [] (AnalyzeRequest.mk "any alerts" 0 none) 100
      (fun _ _ => some []) none id []
      (by decide) (fun tr h => nomatch h) rfl rfl⟩

/-! ## Triage orchestrator (analyzer-svc triage handlers) -/

/-- Risk entry for one bucket of the tier-1 response. -/
structure BucketRisk where
  bucketID : String
  reason : String
  confidence : Float

/-- Structured tier-1 LLM result. -/
structure Tier1Result where
  summary : String
  highRisk : List BucketRisk
  mediumRisk : List BucketRisk
  lowRisk : List BucketRisk

/-- One tier-2 finding. -/
structure TriageFinding where
  priority : String
  category : String
  summary : String
  eventIDs : List String

/-- Triage job record. -/
structure TriageJob where
  id : String
  timeRange : TimeRange
  status : String
  error : String
  createdAt : Time
  tier1 : Option Tier1Result
  findings : List TriageFinding
  scannedEventIDs : List String

/-- Fresh pending job created by handleCreateTriageJob. -/
def newTriageJob (id : String) (tr : TimeRange) (now : Time) : TriageJob :=
  { id := id
    timeRange := tr
    status := "pending"
    error := ""
    createdAt := now
    tier1 := none
    findings := []
    scannedEventIDs := [] }

/-- filterValidBuckets: keep only entries whose bucket_id is in the valid
set; a nil valid map (none) yields nil. -/
def filterValidBuckets (buckets : List BucketRisk) (valid : Option (List String)) :
    List BucketRisk :=
  match valid with
  | none => []
  | some v => buckets.filter (fun b => decide (b.bucketID ∈ v))

/-- filterValidIDs: keep only ids present in the valid set. -/
def filterValidIDs (ids : List String) (valid : List String) : List String :=
  ids.filter (fun id => decide (id ∈ valid))

/-- runTriageTier1: fetch summaries (oracle; none is a store error), finish
early with a literal summary and a nil valid set when none exist, otherwise
build ValidBuckets from the summary bucket starts and consult the LLM
(oracle; none is a gateway or parse error). -/
def runTriageTier1 (summariesRes : Option (List EventSummary))
    (tier1Resp : Option Tier1Result) (fmtTime : Time → String) :
    Option (Tier1Result × Option (List String)) :=
  match summariesRes with
  | none => none
  | some [] =>
    some ({ summary := "No events found in time range"
            highRisk := [], mediumRisk := [], lowRisk := [] }, none)
  | some summaries =>
    match tier1Resp with
    | none => none
    | some result => some (result, some (summaries.map (fun s => fmtTime s.bucketStart)))

/-- Accumulate events and ids over the flagged buckets: unparseable bucket
ids and per-bucket fetch errors are skipped. -/
def tier2Collect (parse : String → Option Time) (fetchE : TimeRange → Option (List Event)) :
    List BucketRisk → List Event × List String
  | [] => ([], [])
  | bucket :: rest =>
    let acc := tier2Collect parse fetchE rest
    match parse bucket.bucketID with
    | none => acc
    | some t =>
      match fetchE { start := t, stop := t + 5 * 60 } with
      | none => acc
      | some events => (events ++ acc.1, events.map Event.id ++ acc.2)

/-- runTriageTier2: collect events over the flagged buckets, finish with no
findings when none were collected, otherwise consult the LLM (oracle) and
filter each finding down to the collected event ids. -/
def runTriageTier2 (parse : String → Option Time)
    (fetchE : TimeRange → Option (List Event))
    (tier2Resp : Option (List TriageFinding)) (flagged : List BucketRisk) :
    Option (List TriageFinding × List String) :=
  let acc := tier2Collect parse fetchE flagged
  if acc.1.isEmpty then some ([], [])
  else
    match tier2Resp with
    | none => none
    | some findings =>
      some (findings.map (fun f => { f with eventIDs := filterValidIDs f.eventIDs acc.2 }),
        acc.2)

/-- processTriageJob: run tier 1, drop hallucinated high and medium entries,
run tier 2 over the flagged buckets, and mark the job complete or failed. -/
def processTriageJob (job0 : TriageJob)
    (summariesRes : Option (List EventSummary)) (tier1Resp : Option Tier1Result)
    (fmtTime : Time → String) (parse : String → Option Time)
    (fetchE : TimeRange → Option (List Event))
    (tier2Resp : Option (List TriageFinding)) : TriageJob :=
  let job := { job0 with status := "running" }
  match runTriageTier1 summariesRes tier1Resp fmtTime with
  | none => { job with status := "failed", error := "tier 1 analysis failed" }
  | some (tier1, validBuckets) =>
    let high := filterValidBuckets tier1.highRisk validBuckets
    let med := filterValidBuckets tier1.mediumRisk validBuckets
    let job1 := { job with tier1 := some { tier1 with highRisk := high, mediumRisk := med } }
    let flagged := high ++ med
    if flagged.isEmpty then { job1 with status := "complete" }
    else
      match runTriageTier2 parse fetchE tier2Resp flagged with
      | none => { job1 with status := "failed", error := "tier 2 analysis failed" }
      | some (findings, eventIDs) =>
        { job1 with findings := findings, scannedEventIDs := eventIDs, status := "complete" }

/-- The ValidBuckets set of a fetched summary list. -/
def validBucketsOf (summariesRes : Option (List EventSummary)) (fmtTime : Time → String) :
    List String :=
  match summariesRes with
  | none => []
  | some summaries => summaries.map (fun s => fmtTime s.bucketStart)

theorem mem_filterValidBuckets (buckets : List BucketRisk) (v : List String) (b : BucketRisk)
    (h : b ∈ filterValidBuckets buckets (some v)) : b.bucketID ∈ v := by
  simp only [filterValidBuckets, List.mem_filter, decide_eq_true_eq] at h
  exact h.2

theorem mem_filterValidIDs (ids valid : List String) (x : String)
    (h : x ∈ filterValidIDs ids valid) : x ∈ valid := by
  simp only [filterValidIDs, List.mem_filter, decide_eq_true_eq] at h
  exact h.2

theorem runTriageTier1_valid_some (summariesRes : Option (List EventSummary))
    (tier1Resp : Option Tier1Result) (fmtTime : Time → String) (t : Tier1Result)
    (v : List String)
    (h : runTriageTier1 summariesRes tier1Resp fmtTime = some (t, some v)) :
    v = validBucketsOf summariesRes fmtTime := by
  cases summariesRes with
  | none => simp [runTriageTier1] at h
  | some l =>
    cases l with
    | nil => simp [runTriageTier1] at h
    | cons s rest =>
      cases tier1Resp with
      | none => simp [runTriageTier1] at h
      | some r =>
        simp only [runTriageTier1, Option.some.injEq, Prod.mk.injEq] at h
        rw [validBucketsOf, ← h.2]

theorem runTriageTier2_findings_scanned (parse : String → Option Time)
    (fetchE : TimeRange → Option (List Event)) (tier2Resp : Option (List TriageFinding))
    (flagged : List BucketRisk) (findings : List TriageFinding) (eventIDs : List String)
    (h : runTriageTier2 parse fetchE tier2Resp flagged = some (findings, eventIDs)) :
    ∀ f, f ∈ findings → ∀ eid, eid ∈ f.eventIDs → eid ∈ eventIDs := by
  unfold runTriageTier2 at h
  by_cases hempty : (tier2Collect parse fetchE flagged).1.isEmpty
  · rw [if_pos hempty] at h
    have hpair := Option.some.inj h
    have hfe : ([] : List TriageFinding) = findings := congrArg Prod.fst hpair
    intro f hf
    rw [← hfe] at hf
    exact absurd hf (List.not_mem_nil f)
  · rw [if_neg hempty] at h
    cases tier2Resp with
    | none => simp at h
    | some fs =>
      simp only [Option.some.injEq, Prod.mk.injEq] at h
      obtain ⟨hfind, hids⟩ := h
      intro f hf eid heid
      rw [← hfind] at hf
      obtain ⟨f0, _, hf0⟩ := List.mem_map.mp hf
      rw [← hf0] at heid
      rw [← hids]
      exact mem_filterValidIDs _ _ _ heid

/-- Claim C2: in every triage job that reaches the complete state, every
bucket listed in tier1 high_risk or medium_risk belongs to the ValidBuckets
set built from the fetched summaries, the low_risk list of the parsed
tier-1 response is kept verbatim, and every event id of every finding
belongs to the scanned_event_ids accumulated in tier 2. -/
theorem triage_complete_validated (id : String) (tr : TimeRange) (now : Time)
    (summariesRes : Option (List EventSummary)) (tier1Resp : Option Tier1Result)
    (fmtTime : Time → String) (parse : String → Option Time)
    (fetchE : TimeRange → Option (List Event)) (tier2Resp : Option (List TriageFinding))
    (hdone : (processTriageJob (newTriageJob id tr now) summariesRes tier1Resp fmtTime
        parse fetchE tier2Resp).status = "complete") :
    (∀ t1, (processTriageJob (newTriageJob id tr now) summariesRes tier1Resp fmtTime
          parse fetchE tier2Resp).tier1 = some t1 →
        (∀ b, (b ∈ t1.highRisk ∨ b ∈ t1.mediumRisk) →
          b.bucketID ∈ validBucketsOf summariesRes fmtTime)
        ∧ (∀ t0 v0, runTriageTier1 summariesRes tier1Resp fmtTime = some (t0, v0) →
            t1.lowRisk = t0.lowRisk))
    ∧ (∀ f, f ∈ (processTriageJob (newTriageJob id tr now) summariesRes tier1Resp fmtTime
          parse fetchE tier2Resp).findings →
        ∀ eid, eid ∈ f.eventIDs →
          eid ∈ (processTriageJob (newTriageJob id tr now) summariesRes tier1Resp fmtTime
            parse fetchE tier2Resp).scannedEventIDs) := by
  cases h1 : runTriageTier1 summariesRes tier1Resp fmtTime with
  | none =>
    have hjob : processTriageJob (newTriageJob id tr now) summariesRes tier1Resp fmtTime
        parse fetchE tier2Resp
        = { newTriageJob id tr now with
            status := "failed", error := "tier 1 analysis failed" } := by
      simp [processTriageJob, h1]
    rw [hjob] at hdone
    exact absurd hdone (show ¬(("failed" : String) = "complete") by decide)
  | some p =>
    obtain ⟨t0, validOpt⟩ := p
    have hbuckets : ∀ b, (b ∈ filterValidBuckets t0.highRisk validOpt
        ∨ b ∈ filterValidBuckets t0.mediumRisk validOpt) →
        b.bucketID ∈ validBucketsOf summariesRes fmtTime := by
      intro b hb
      cases validOpt with
      | none => simp [filterValidBuckets] at hb
      | some v =>
        have hv := runTriageTier1_valid_some summariesRes tier1Resp fmtTime t0 v h1
        rcases hb with hb | hb
        · exact hv ▸ mem_filterValidBuckets _ _ _ hb
        · exact hv ▸ mem_filterValidBuckets _ _ _ hb
    have hlow : ∀ t1, t1 = { t0 with
          highRisk := filterValidBuckets t0.highRisk validOpt
          mediumRisk := filterValidBuckets t0.mediumRisk validOpt } →
        ∀ ta v0, (some (t0, validOpt)
            : Option (Tier1Result × Option (List String))) = some (ta, v0) →
          t1.lowRisk = ta.lowRisk := by
      intro t1 ht1 ta v0 hta
      have h12 := Option.some.inj hta
      have ht0 : t0 = ta := congrArg Prod.fst h12
      rw [ht1, ← ht0]
    by_cases hflag : (filterValidBuckets t0.highRisk validOpt
        ++ filterValidBuckets t0.mediumRisk validOpt).isEmpty
    · have hjob : processTriageJob (newTriageJob id tr now) summariesRes tier1Resp fmtTime
          parse fetchE tier2Resp
          = { newTriageJob id tr now with
              status := "complete"
              tier1 := some { t0 with
                highRisk := filterValidBuckets t0.highRisk validOpt
                mediumRisk := filterValidBuckets t0.mediumRisk validOpt } } := by
        simp [processTriageJob, h1, hflag]
      rw [hjob]
      constructor
      · intro t1 ht1
        have ht1e : t1 = { t0 with
            highRisk := filterValidBuckets t0.highRisk validOpt
            mediumRisk := filterValidBuckets t0.mediumRisk validOpt } :=
          (Option.some.inj ht1).symm
        refine ⟨?_, hlow t1 ht1e⟩
        intro b hb
        rw [ht1e] at hb
        exact hbuckets b hb
      · intro f hf
        simp [newTriageJob] at hf
    · cases h2 : runTriageTier2 parse fetchE tier2Resp
          (filterValidBuckets t0.highRisk validOpt
            ++ filterValidBuckets t0.mediumRisk validOpt) with
      | none =>
        have hjob : processTriageJob (newTriageJob id tr now) summariesRes tier1Resp fmtTime
            parse fetchE tier2Resp
            = { newTriageJob id tr now with
                status := "failed"
                error := "tier 2 analysis failed"
                tier1 := some { t0 with
                  highRisk := filterValidBuckets t0.highRisk validOpt
                  mediumRisk := filterValidBuckets t0.mediumRisk validOpt } } := by
          simp [processTriageJob, h1, hflag, h2]
        rw [hjob] at hdone
        exact absurd hdone (show ¬(("failed" : String) = "complete") by decide)
      | some q =>
        obtain ⟨findings, eventIDs⟩ := q
        have hjob : processTriageJob (newTriageJob id tr now) summariesRes tier1Resp fmtTime
            parse fetchE tier2Resp
            = { newTriageJob id tr now with
                status := "complete"
                tier1 := some { t0 with
                  highRisk := filterValidBuckets t0.highRisk validOpt
                  mediumRisk := filterValidBuckets t0.mediumRisk validOpt }
                findings := findings
                scannedEventIDs := eventIDs } := by
          simp [processTriageJob, h1, hflag, h2]
        rw [hjob]
        constructor
        · intro t1 ht1
          have ht1e : t1 = { t0 with
              highRisk := filterValidBuckets t0.highRisk validOpt
              mediumRisk := filterValidBuckets t0.mediumRisk validOpt } :=
            (Option.some.inj ht1).symm
          refine ⟨?_, hlow t1 ht1e⟩
          intro b hb
          rw [ht1e] at hb
          exact hbuckets b hb
        · exact runTriageTier2_findings_scanned parse fetchE tier2Resp
            (filterValidBuckets t0.highRisk validOpt
              ++ filterValidBuckets t0.mediumRisk validOpt) findings eventIDs h2

/-- Concrete tier-1 summaries for the C2 witness. -/
def c2Summaries : Option (List EventSummary) :=
  some [EventSummary.mk 0 300 1 [("SeverityInfo", 1)] [("conn", 1)] []]

/-- Concrete tier-1 LLM response with one valid and one hallucinated bucket. -/
def c2Tier1Resp : Option Tier1Result :=
  some (Tier1Result.mk "overall"
    [BucketRisk.mk "0" "bad" 0.9, BucketRisk.mk "bogus" "fake" 0.5] []
    [BucketRisk.mk "x" "low" 0.1])

/-- Concrete bucket-start formatter for the C2 witness. -/
def c2Fmt : Time → String := fun _ => "0"

/-- Concrete bucket-id parser for the C2 witness. -/
def c2Parse : String → Option Time := fun s => if s = "0" then some 0 else none

/-- Concrete per-bucket event fetch for the C2 witness. -/
def c2Fetch : TimeRange → Option (List Event) :=
  fun _ => some [Event.mk "e1" 10 "fw" Severity.info "conn" []]

/-- Concrete tier-2 LLM response with one real and one hallucinated event id. -/
def c2Tier2Resp : Option (List TriageFinding) :=
  some [TriageFinding.mk "P1" "cat" "sum" ["e1", "ghost"]]

/-- Claim C2 witness: a concrete job completes with the hallucinated bucket
and the hallucinated event id dropped. -/
theorem triage_complete_validated_witness :
    ((processTriageJob (newTriageJob "job-1" (TimeRange.mk 100 200) 50) c2Summaries
        c2Tier1Resp c2Fmt c2Parse c2Fetch c2Tier2Resp).status = "complete")
    ∧ ((∀ t1, (processTriageJob (newTriageJob "job-1" (TimeRange.mk 100 200) 50) c2Summaries
            c2Tier1Resp c2Fmt c2Parse c2Fetch c2Tier2Resp).tier1 = some t1 →
          (∀ b, (b ∈ t1.highRisk ∨ b ∈ t1.mediumRisk) →
            b.bucketID ∈ validBucketsOf c2Summaries c2Fmt)
          ∧ (∀ t0 v0, runTriageTier1 c2Summaries c2Tier1Resp c2Fmt = some (t0, v0) →
              t1.lowRisk = t0.lowRisk))
      ∧ (∀ f, f ∈ (processTriageJob (newTriageJob "job-1" (TimeRange.mk 100 200) 50) c2Summaries
            c2Tier1Resp c2Fmt c2Parse c2Fetch c2Tier2Resp).findings →
          ∀ eid, eid ∈ f.eventIDs →
            eid ∈ (processTriageJob (newTriageJob "job-1" (TimeRange.mk 100 200) 50) c2Summaries
              c2Tier1Resp c2Fmt c2Parse c2Fetch c2Tier2Resp).scannedEventIDs)) :=
  ⟨rfl, triage_complete_validated "job-1" (TimeRange.mk 100 200) 50 c2Summaries c2Tier1Resp
    c2Fmt c2Parse c2Fetch c2Tier2Resp rfl⟩

/-! ## Triage job cache and create handler -/

/-- triageJobKey: key of the full job record. -/
def triageJobKey (jobID : String) : String := "triage:job:" ++ jobID

/-- The two key spaces of the triage cache: the results key (time-range
digest, storing the job id) and the job key (storing the job). Stored jobs
stand for their JSON, as for the analyze cache. -/
structure TriageCache where
  results : List (String × String)
  jobs : List (String × TriageJob)

/-- cacheTriageJob: write the job under its job key and the job id under the
results key (pipelined SETs with TTL 30 min; liveness only is modelled). -/
def cacheTriageJob (c : TriageCache) (job : TriageJob) (cacheKey : String) : TriageCache :=
  { results := setA c.results cacheKey job.id
    jobs := setA c.jobs (triageJobKey job.id) job }

/-- getCachedTriageJob: job lookup by id. -/
def getCachedTriageJob (c : TriageCache) (jobID : String) : Option TriageJob :=
  lookupA c.jobs (triageJobKey jobID)

/-- getCachedTriageJobByKey: results-key lookup then job lookup. -/
def getCachedTriageJobByKey (c : TriageCache) (cacheKey : String) : Option TriageJob :=
  match lookupA c.results cacheKey with
  | none => none
  | some jobID => getCachedTriageJob c jobID

/-- HTTP outcome of the create-job handler. -/
inductive CreateJobOutcome
  | badRequest (msg : String)
  | okExisting (job : TriageJob)
  | accepted (jobID : String) (status : String)

/-- handleCreateTriageJob: validate the range, return any job already stored
under the results key unchanged, otherwise persist a fresh pending job under
both keys and spawn the background task. The Bool records whether a
background task was spawned. -/
def handleCreateTriageJob (c : TriageCache) (tr : TimeRange) (freshID : String)
    (now : Time) : TriageCache × CreateJobOutcome × Bool :=
  if !(validateTimeRange tr) then (c, .badRequest "invalid time range", false)
  else
    match getCachedTriageJobByKey c (triageResultsCacheKey tr) with
    | some cached => (c, .okExisting cached, false)
    | none =>
      let job := newTriageJob freshID tr now
      (cacheTriageJob c job (triageResultsCacheKey tr), .accepted job.id job.status, true)

/-- Claim C4: the triage results key is the deterministic digest
triage: plus 12 hex characters of the SHA-256 of the time range; and a
second create request with the identical time range, issued while the first
pending job is cached, returns the existing job unchanged (same job id),
leaves the cache untouched and spawns no background work. -/
theorem triage_create_idempotent (c0 : TriageCache) (tr : TimeRange)
    (id1 id2 : String) (t1 t2 : Time)
    (hvalid : validateTimeRange tr = true)
    (hmiss : getCachedTriageJobByKey c0 (triageResultsCacheKey tr) = none) :
    triageResultsCacheKey tr
        = "triage:" ++ (hexStr (sha256 (utf8Bytes (jsonTimeRange tr)))).take 12
    ∧ handleCreateTriageJob c0 tr id1 t1
        = (cacheTriageJob c0 (newTriageJob id1 tr t1) (triageResultsCacheKey tr),
            .accepted id1 "pending", true)
    ∧ handleCreateTriageJob
          (cacheTriageJob c0 (newTriageJob id1 tr t1) (triageResultsCacheKey tr)) tr id2 t2
        = (cacheTriageJob c0 (newTriageJob id1 tr t1) (triageResultsCacheKey tr),
            .okExisting (newTriageJob id1 tr t1), false) := by
  have hhit : getCachedTriageJobByKey
      (cacheTriageJob c0 (newTriageJob id1 tr t1) (triageResultsCacheKey tr))
      (triageResultsCacheKey tr) = some (newTriageJob id1 tr t1) := by
    unfold getCachedTriageJobByKey cacheTriageJob
    rw [lookupA_setA_self]
    unfold getCachedTriageJob
    exact lookupA_setA_self _ _ _
  refine ⟨rfl, ?_, ?_⟩
  · unfold handleCreateTriageJob
    rw [hvalid, hmiss]
    rfl
  · unfold handleCreateTriageJob
    rw [hvalid, hhit]
    rfl

/-- Claim C4 witness: two concrete create requests for the same range on an
initially empty cache. -/
theorem triage_create_idempotent_witness :
    (validateTimeRange (TimeRange.mk 100 200) = true
      ∧ getCachedTriageJobByKey (TriageCache.mk [] [])
          (triageResultsCacheKey (TimeRange.mk 100 200)) = none)
    ∧ (triageResultsCacheKey (TimeRange.mk 100 200)
        = "triage:" ++ (hexStr (sha256 (utf8Bytes
            (jsonTimeRange (TimeRange.mk 100 200))))).take 12
      ∧ handleCreateTriageJob (TriageCache.mk [] []) (TimeRange.mk 100 200) "uuid-1" 10
          = (cacheTriageJob (TriageCache.mk [] []) (newTriageJob "uuid-1" (TimeRange.mk 100 200) 10)
              (triageResultsCacheKey (TimeRange.mk 100 200)),
              .accepted "uuid-1" "pending", true)
      ∧ handleCreateTriageJob
            (cacheTriageJob (TriageCache.mk [] [])
              (newTriageJob "uuid-1" (TimeRange.mk 100 200) 10)
              (triageResultsCacheKey (TimeRange.mk 100 200)))
            (TimeRange.mk 100 200) "uuid-2" 20
          = (cacheTriageJob (TriageCache.mk [] [])
              (newTriageJob "uuid-1" (TimeRange.mk 100 200) 10)
              (triageResultsCacheKey (TimeRange.mk 100 200)),
              .okExisting (newTriageJob "uuid-1" (TimeRange.mk 100 200) 10), false)) :=
  ⟨⟨by decide, rfl⟩,
    triage_create_idempotent (TriageCache.mk [] []) (TimeRange.mk 100 200) "uuid-1" "uuid-2"
      10 20 (by decide) rfl⟩

/-! ## Event fetch and the tier-2 bucket window (fetchEvents, runTriageTier2) -/

/-- fetchEvents (analyzer-svc): SELECT with the optional filter
timestamp >= start AND timestamp <= end, ORDER BY timestamp DESC, LIMIT.
The database rows are modelled as a list of events. -/
def fetchEventsModel (db : List Event) (timeRange : Option TimeRange) (limit : Nat) :
    List Event :=
  let filtered :=
    match timeRange with
    | none => db
    | some r => db.filter
        (fun e => decide (r.start ≤ e.timestamp) && decide (e.timestamp ≤ r.stop))
  (List.insertionSort (fun a b => b.timestamp ≤ a.timestamp) filtered).take limit

/-- tier2EventLimit. -/
def tier2EventLimit : Nat := 100

/-- The tier-2 fetch for a flagged bucket (runTriageTier2): the window runs
from the parsed bucket time to five minutes later, limit 100. One tick is a
second, so five minutes is 300 ticks. -/
def tier2FetchBucket (db : List Event) (bucketTime : Time) : List Event :=
  fetchEventsModel db (some (TimeRange.mk bucketTime (bucketTime + 5 * 60))) tier2EventLimit

/-- Claim C6 counterexample: an event timestamped exactly bucket_start plus
five minutes IS returned by the tier-2 bucket fetch, because the SQL window
is closed at the upper end (timestamp <= end), refuting the claimed
half-open window. -/
theorem tier2_window_boundary_included :
    (Event.mk "e-bound" 300 "fw" Severity.info "conn" []).timestamp = 0 + 5 * 60
    ∧ tier2FetchBucket [Event.mk "e-bound" 300 "fw" Severity.info "conn" []] 0
        = [Event.mk "e-bound" 300 "fw" Severity.info "conn" []] := by
  exact ⟨by decide, rfl⟩

/-- Claim C6 as amended: for a flagged bucket whose id parses, the fetched
events are exactly the stored events in the closed window
[bucket_start, bucket_start + 5 minutes] (the boundary event included),
whenever at most 100 events match; and a flagged bucket whose id fails to
parse contributes nothing to the tier-2 accumulation. -/
theorem tier2_window_closed (db : List Event) (t : Time)
    (hcount : (db.filter (fun e => decide (t ≤ e.timestamp)
        && decide (e.timestamp ≤ t + 5 * 60))).length ≤ 100) :
    (∀ e, e ∈ tier2FetchBucket db t
        ↔ (e ∈ db ∧ t ≤ e.timestamp ∧ e.timestamp ≤ t + 5 * 60))
    ∧ (∀ (parse : String → Option Time) (fetchE : TimeRange → Option (List Event))
        (b : BucketRisk) (rest : List BucketRisk), parse b.bucketID = none →
          tier2Collect parse fetchE (b :: rest) = tier2Collect parse fetchE rest) := by
  constructor
  · intro e
    unfold tier2FetchBucket fetchEventsModel tier2EventLimit
    rw [List.take_of_length_le]
    · rw [List.mem_insertionSort]
      simp [List.mem_filter, and_assoc]
    · rw [List.length_insertionSort]
      exact hcount
  · intro parse fetchE b rest hparse
    simp [tier2Collect, hparse]

/-- Claim C6 amended-form witness: one stored event inside the window. -/
theorem tier2_window_closed_witness :
    (([Event.mk "e1" 10 "fw" Severity.info "conn" []].filter
        (fun e => decide ((0 : Int) ≤ e.timestamp)
          && decide (e.timestamp ≤ 0 + 5 * 60))).length ≤ 100)
    ∧ ((∀ e, e ∈ tier2FetchBucket [Event.mk "e1" 10 "fw" Severity.info "conn" []] 0
        ↔ (e ∈ [Event.mk "e1" 10 "fw" Severity.info "conn" []]
            ∧ (0 : Int) ≤ e.timestamp ∧ e.timestamp ≤ 0 + 5 * 60))
      ∧ (∀ (parse : String → Option Time) (fetchE : TimeRange → Option (List Event))
          (b : BucketRisk) (rest : List BucketRisk), parse b.bucketID = none →
            tier2Collect parse fetchE (b :: rest) = tier2Collect parse fetchE rest)) :=
  ⟨by decide, tier2_window_closed [Event.mk "e1" 10 "fw" Severity.info "conn" []] 0 (by decide)⟩

/-! ## LLM gateway circuit breaker (gobreaker, prompts.go, analyze.go) -/

/-- gobreaker states; opened models StateOpen. -/
inductive BreakerState
  | closed
  | opened
  | halfOpen
  deriving DecidableEq

/-- gobreaker ErrOpenState message. -/
def breakerOpenError : String := "circuit breaker is open"

/-- gobreaker Execute: while open, fail fast with ErrOpenState without
invoking the wrapped function; otherwise invoke it. The Bool records
whether the wrapped provider call ran. -/
def breakerExecute (st : BreakerState) (call : Unit → Except String String) :
    Except String String × Bool :=
  match st with
  | .opened => (Except.error breakerOpenError, false)
  | _ => (call (), true)

/-- generateContentWithSchema (prompts.go): the gateway used by both triage
tiers invokes GenerateContent inside the circuit breaker, returns errors
(including the open-breaker error) unchanged, and trims the text. -/
def generateContentWithSchemaCall (st : BreakerState)
    (provider : Unit → Except String String) : Except String String × Bool :=
  match breakerExecute st provider with
  | (Except.error e, called) => (Except.error e, called)
  | (Except.ok text, called) => (Except.ok (strTrim text), called)

/-- analyzeWithLLM (analyze.go) with a configured client: GenerateContent is
invoked directly on the client, not through the circuit breaker, so the
breaker state does not participate. -/
def analyzeWithLLMCall (st : BreakerState)
    (provider : Unit → Except String String) : Except String String × Bool :=
  match provider () with
  | Except.error e => (Except.error e, true)
  | Except.ok text => (Except.ok (strTrim text), true)

/-- Claim C7 counterexample: with the breaker open, the analyze flow still
invokes the provider and returns its text, refuting the claim that every
GenerateContent invocation happens inside the breaker Execute. -/
theorem analyze_flow_bypasses_breaker :
    analyzeWithLLMCall BreakerState.opened (fun _ => Except.ok "resp")
      = (Except.ok "resp", true) := rfl

/-- Claim C7 as amended: the triage flows invoke GenerateContent inside the
breaker Execute, so while the breaker is open no provider call occurs and
the breaker error is returned unchanged; the analyze flow however invokes
the provider directly, regardless of the breaker state. -/
theorem triage_gateway_inside_breaker (provider : Unit → Except String String) :
    generateContentWithSchemaCall BreakerState.opened provider
        = (Except.error breakerOpenError, false)
    ∧ (∀ st, (analyzeWithLLMCall st provider).2 = true) := by
  constructor
  · rfl
  · intro st
    unfold analyzeWithLLMCall
    cases provider () <;> rfl

/-! ## Processor consume loop and DLQ routing (processor.go, dlq.go) -/

/-- DLQ reason constants (dlq.go). -/
def DLQReasonUnmarshalFailed : String := "unmarshal_failed"

/-- DLQ reason for events that fail validation after decode. -/
def DLQReasonValidationFailed : String := "validation_failed"

/-- A consumed log record. The raw value bytes are carried as a string. -/
structure KafkaRecord where
  topic : String
  partition : Int
  offset : Int
  key : String
  value : String
  deriving DecidableEq

/-- DLQ envelope (dlq.go). The base64 rendering of the raw value is
abstracted to the raw value itself (both renderings are injective). -/
structure DLQRecord where
  originalTopic : String
  originalPartition : Int
  originalOffset : Int
  originalKey : String
  originalValueB64 : String
  failedAt : Time
  reason : String
  error : String
  deriving DecidableEq

/-- publishToDLQ envelope construction for a failed record. -/
def dlqEnvelope (record : KafkaRecord) (reason : String) (errText : String)
    (now : Time) : DLQRecord :=
  { originalTopic := record.topic
    originalPartition := record.partition
    originalOffset := record.offset
    originalKey := record.key
    originalValueB64 := record.value
    failedAt := now
    reason := reason
    error := errText }

/-- Item forwarded to the batch channel: the record handle plus the decoded
event, or none for a DLQ-routed record. -/
structure BatchItem where
  record : KafkaRecord
  event : Option Event
  deriving DecidableEq

/-- decodeEvent (processor.go): JSON unmarshal (outcome supplied by the
library as an oracle), then Enrich, then Validate. Returns the enriched
event with an empty reason on success, or no event with the DLQ reason. -/
def decodeEvent (unmarshalled : Option Event) (freshId : String) (now : Time) :
    Option Event × String :=
  match unmarshalled with
  | none => (none, DLQReasonUnmarshalFailed)
  | some e =>
    let enriched := enrichEvent e freshId now
    if validateEvent enriched then (some enriched, "")
    else (none, DLQReasonValidationFailed)

/-- One record step of the consume loop: decode, publish the DLQ envelope on
failure, and in every case forward the item (with the event or none) to the
batch channel, so the record offset is committed with its batch. -/
def consumeRecordStep (record : KafkaRecord) (unmarshalled : Option Event)
    (freshId : String) (now : Time) (errText : String) :
    Option DLQRecord × BatchItem :=
  let decoded := decodeEvent unmarshalled freshId now
  if decoded.2 == "" then (none, { record := record, event := decoded.1 })
  else (some (dlqEnvelope record decoded.2 errText now),
    { record := record, event := decoded.1 })

/-- Claim C9: a record whose value fails JSON unmarshalling is published to
the DLQ with reason exactly unmarshal_failed; one that unmarshals but fails
validation after enrichment goes to the DLQ with reason exactly
validation_failed; in both cases the record is still forwarded to the batch
channel with no event, so its offset is committed; a record that decodes
and validates yields the enriched event and no DLQ publish. -/
theorem consume_dlq_routing (record : KafkaRecord) (e : Event)
    (freshId : String) (now : Time) (errText : String) :
    consumeRecordStep record none freshId now errText
        = (some (dlqEnvelope record DLQReasonUnmarshalFailed errText now),
            { record := record, event := none })
    ∧ (validateEvent (enrichEvent e freshId now) = false →
        consumeRecordStep record (some e) freshId now errText
          = (some (dlqEnvelope record DLQReasonValidationFailed errText now),
              { record := record, event := none }))
    ∧ (validateEvent (enrichEvent e freshId now) = true →
        consumeRecordStep record (some e) freshId now errText
          = (none, { record := record, event := some (enrichEvent e freshId now) })) := by
  refine ⟨rfl, ?_, ?_⟩
  · intro hbad
    simp [consumeRecordStep, decodeEvent, hbad]
    decide
  · intro hgood
    simp [consumeRecordStep, decodeEvent, hgood]

/-- Claim C9 witness: a record decoding to a blank-source event is DLQ-routed
as validation_failed yet forwarded, and a well-formed event passes with no
DLQ publish. -/
theorem consume_dlq_routing_witness :
    (validateEvent (enrichEvent (Event.mk "" 0 "  " Severity.info "conn" []) "abc123" 99)
        = false
      ∧ validateEvent (enrichEvent (Event.mk "e9" 7 "fw" Severity.info "conn" []) "abc123" 99)
        = true)
    ∧ (consumeRecordStep (KafkaRecord.mk "events" 0 42 "k" "payload")
          (some (Event.mk "" 0 "  " Severity.info "conn" [])) "abc123" 99 "bad json"
        = (some (dlqEnvelope (KafkaRecord.mk "events" 0 42 "k" "payload")
            DLQReasonValidationFailed "bad json" 99),
            { record := KafkaRecord.mk "events" 0 42 "k" "payload", event := none })
      ∧ consumeRecordStep (KafkaRecord.mk "events" 0 42 "k" "payload")
          (some (Event.mk "e9" 7 "fw" Severity.info "conn" [])) "abc123" 99 "bad json"
        = (none, { record := KafkaRecord.mk "events" 0 42 "k" "payload", event := some (enrichEvent (Event.mk "e9" 7 "fw" Severity.info "conn" []) "abc123" 99) })) :=
  ⟨⟨by decide, by decide⟩,
    ⟨(consume_dlq_routing (KafkaRecord.mk "events" 0 42 "k" "payload")
        (Event.mk "" 0 "  " Severity.info "conn" []) "abc123" 99 "bad json").2.1 (by decide),
      (consume_dlq_routing (KafkaRecord.mk "events" 0 42 "k" "payload")
        (Event.mk "e9" 7 "fw" Severity.info "conn" []) "abc123" 99 "bad json").2.2
        (by decide)⟩⟩
